import Mathlib

/-!
Formal model of the scene-state reconciliation core of a Homebridge plugin
exposing Philips Hue scenes as switches with gradual transition durations.

The definitions below are shallow embeddings of the TypeScript source
(src/types.ts, src/api.ts, src/sceneAccessory.ts, src/platform.ts).
Network effects are made explicit: the outcome of each awaited HTTP call is
passed in as an argument of type Except, and each modelled code path records
the network calls it issues as a list, in the order they are started.
Timestamps (Date.now) are integers in milliseconds.
-/

/-- The status.active tag of a bridge scene resource
(types.ts, HueScene.status.active: inactive, static or dynamic_palette). -/
inductive SceneStatus where
  | inactive
  | static
  | dynamicPalette
deriving DecidableEq

/-- A bridge scene resource, restricted to the fields the reconciliation core
reads: the id and the optional status tag (types.ts, HueScene). The status
field is optional in the wire format, hence Option. -/
structure HueScene where
  id : String
  status : Option SceneStatus
deriving DecidableEq

/-- One configured scene (types.ts, SceneConfig); transitionDuration is in
minutes. -/
structure SceneConfig where
  id : String
  name : String
  transitionDuration : Int
deriving DecidableEq

/-- The test the source applies to a scene to decide bridge-side activity:
scene.status and scene.status.active equal to static or dynamic_palette
(sceneAccessory.ts line 79, platform.ts line 571). An absent status field
makes both comparisons false. -/
def sceneIsActive (s : HueScene) : Bool :=
  match s.status with
  | some SceneStatus.static => true
  | some SceneStatus.dynamicPalette => true
  | _ => false

/-- The body of the PUT recall request (types.ts, SceneRecallRequest.recall):
an action string plus an optional duration in milliseconds. -/
structure SceneRecallRequest where
  action : String
  duration : Option Int
deriving DecidableEq

/-- Request construction inside recallScene (api.ts lines 167-176): the body
starts as recall.action = active, and the duration field is added only when
transitionMs was passed and is strictly positive. -/
def buildRecallRequest (transitionMs : Option Int) : SceneRecallRequest :=
  match transitionMs with
  | some t =>
    if t > 0 then { action := "active", duration := some t }
    else { action := "active", duration := none }
  | none => { action := "active", duration := none }

/-- The network calls the modelled code paths can issue. A recallScene call
carries the scene id and the PUT body built by buildRecallRequest. -/
inductive ApiCall where
  | recallScene (sceneId : String) (body : SceneRecallRequest)
  | getScene (sceneId : String)
  | getScenes
deriving DecidableEq

/-- Per-accessory runtime state (sceneAccessory.ts fields isActivating and
lastActivated). -/
structure SceneState where
  isActivating : Bool
  lastActivated : Option Int
deriving DecidableEq

/-- Outcome of one getOn call: the boolean returned to the registry and the
network calls issued on the way. -/
structure GetOnResult where
  value : Bool
  calls : List ApiCall
deriving DecidableEq

/-- The slow path of getOn (sceneAccessory.ts lines 77-91): fetch the scene;
on success report sceneIsActive, on fetch failure log and report false. -/
def getOnViaBridge (cfg : SceneConfig) (fetchResult : Except String HueScene) :
    GetOnResult :=
  match fetchResult with
  | Except.ok scene => { value := sceneIsActive scene, calls := [ApiCall.getScene cfg.id] }
  | Except.error _ => { value := false, calls := [ApiCall.getScene cfg.id] }

/-- getOn (sceneAccessory.ts lines 65-97). If lastActivated is set and less
than 30000 ms old, return true at once with no network call; otherwise go to
the bridge. The outer catch for unexpected internal errors is unreachable in
this model since the inner catch already handles the fetch failure. -/
def getOn (cfg : SceneConfig) (st : SceneState) (now : Int)
    (fetchResult : Except String HueScene) : GetOnResult :=
  match st.lastActivated with
  | some t =>
    if now - t < 30000 then { value := true, calls := [] }
    else getOnViaBridge cfg fetchResult
  | none => getOnViaBridge cfg fetchResult

/-- The synchronous prefix of setOn, up to its one suspension point
(sceneAccessory.ts lines 104-125): either the isActivating guard returns
early, or the off branch completes synchronously, or the on branch sets
isActivating, issues the recallScene call and suspends awaiting it. -/
inductive Phase1Out where
  | noop
  | offDone (st : SceneState)
  | inFlight (st : SceneState) (call : ApiCall)
deriving DecidableEq

/-- First phase of setOn (sceneAccessory.ts lines 104-125 plus the finally on
the off path, which never suspends). The off branch clears lastActivated and
the finally clause leaves isActivating false. -/
def setOnPhase1 (cfg : SceneConfig) (st : SceneState) (value : Bool) : Phase1Out :=
  if st.isActivating then Phase1Out.noop
  else if value then
    Phase1Out.inFlight
      { st with isActivating := true }
      (ApiCall.recallScene cfg.id
        (buildRecallRequest (some (cfg.transitionDuration * 60 * 1000))))
  else
    Phase1Out.offDone { isActivating := false, lastActivated := none }

/-- Second phase of setOn, resumed after the awaited recallScene resolves
(sceneAccessory.ts lines 127-152). Returns the new state, whether a
communication-failure signal is raised, and the scheduled characteristic
reversion as (delay in ms, value written), per the setTimeout of 100 ms
writing the negation of the requested value. The finally clause clears
isActivating on both paths; on failure lastActivated is left untouched. -/
def setOnPhase2 (st : SceneState) (value : Bool) (now : Int)
    (recallResult : Except String Unit) :
    SceneState × Bool × Option (Int × Bool) :=
  match recallResult with
  | Except.ok _ => ({ isActivating := false, lastActivated := some now }, false, none)
  | Except.error _ => ({ st with isActivating := false }, true, some (100, !value))

/-- Outcome of one full setOn call. -/
structure SetOnResult where
  state : SceneState
  calls : List ApiCall
  raisedCommFailure : Bool
  scheduledRevert : Option (Int × Bool)
deriving DecidableEq

/-- One setOn call run to completion with no interleaved activity
(sceneAccessory.ts lines 104-153): phase 1 followed, when it suspended, by
phase 2 on the state phase 1 left. -/
def setOn (cfg : SceneConfig) (st : SceneState) (value : Bool) (now : Int)
    (recallResult : Except String Unit) : SetOnResult :=
  match setOnPhase1 cfg st value with
  | Phase1Out.noop =>
    { state := st, calls := [], raisedCommFailure := false, scheduledRevert := none }
  | Phase1Out.offDone st2 =>
    { state := st2, calls := [], raisedCommFailure := false, scheduledRevert := none }
  | Phase1Out.inFlight st2 c =>
    let r := setOnPhase2 st2 value now recallResult
    { state := r.1, calls := [c], raisedCommFailure := r.2.1, scheduledRevert := r.2.2 }

/-- Two setOn calls on the same accessory under the single-threaded event
loop: call A runs its synchronous prefix; if A suspended at its network call,
call B runs to completion while A is in flight, then A resumes on the state B
left. Returns the network calls in the order they were started, and the final
state. -/
def interleavedWrites (cfg : SceneConfig) (st : SceneState) (vA vB : Bool)
    (now : Int) (rA rB : Except String Unit) : List ApiCall × SceneState :=
  match setOnPhase1 cfg st vA with
  | Phase1Out.noop =>
    let b := setOn cfg st vB now rB
    (b.calls, b.state)
  | Phase1Out.offDone stA =>
    let b := setOn cfg stA vB now rB
    (b.calls, b.state)
  | Phase1Out.inFlight stMid c =>
    let b := setOn cfg stMid vB now rB
    let r := setOnPhase2 b.state vA now rA
    (c :: b.calls, r.1)

/-- Platform polling state (platform.ts fields isPolling and apiClient;
hasApiClient models whether apiClient is non-null). -/
structure PollState where
  isPolling : Bool
  hasApiClient : Bool
deriving DecidableEq

/-- Lookup in the Map built by new Map over (s.id, s) pairs
(platform.ts line 564): for duplicate ids the last insertion wins. -/
def sceneMapGet (scenes : List HueScene) (id : String) : Option HueScene :=
  scenes.foldl (fun acc s => if s.id = id then some s else acc) none

/-- The broadcast loop body of pollSceneStatus (platform.ts lines 567-574):
iterate the configured scenes in configuration order; for each whose id is in
the scene map, emit (sceneId, isActive). -/
def computeBroadcasts (cfgScenes : List SceneConfig) (scenes : List HueScene) :
    List (String × Bool) :=
  cfgScenes.filterMap (fun sc =>
    match sceneMapGet scenes sc.id with
    | some scene => some (sc.id, sceneIsActive scene)
    | none => none)

/-- Outcome of one pollSceneStatus tick: final polling state, network calls
issued, and the sceneUpdated events emitted in order. -/
structure PollResult where
  state : PollState
  calls : List ApiCall
  broadcasts : List (String × Bool)
deriving DecidableEq

/-- pollSceneStatus (platform.ts lines 552-584). If already polling or there
is no API client, return at once. Otherwise set the busy flag, fetch the
scene list, broadcast per configured scene on success, log and swallow the
error on failure, and clear the busy flag in the finally clause. -/
def pollSceneStatus (cfgScenes : List SceneConfig) (st : PollState)
    (fetchResult : Except String (List HueScene)) : PollResult :=
  if st.isPolling || !st.hasApiClient then
    { state := st, calls := [], broadcasts := [] }
  else
    match fetchResult with
    | Except.ok scenes =>
      { state := { st with isPolling := false },
        calls := [ApiCall.getScenes],
        broadcasts := computeBroadcasts cfgScenes scenes }
    | Except.error _ =>
      { state := { st with isPolling := false },
        calls := [ApiCall.getScenes],
        broadcasts := [] }

/-- One entry of the success list in the bridge auth response
(types.ts, HueAuthResponse.success). -/
structure HueAuthSuccess where
  username : String
deriving DecidableEq

/-- The error object of the bridge auth response
(types.ts, HueAuthResponse.error). -/
structure HueAuthError where
  type : Int
  address : String
  description : String
deriving DecidableEq

/-- One element of the bridge auth response array (types.ts,
HueAuthResponse): optional success list and optional error object. -/
structure HueAuthResponse where
  success : Option (List HueAuthSuccess)
  error : Option HueAuthError
deriving DecidableEq

/-- Response handling of createApiKey (api.ts lines 77-87) on the parsed
response array: take element 0; if its success list is present and
non-empty return the first username; else if an error object is present
fail with its description; else fail with the fixed format message. An empty
array makes the JS code dereference undefined and throw a TypeError, which
the catch rethrows unchanged; the exact runtime message is summarised here. -/
def createApiKey (data : List HueAuthResponse) : Except String String :=
  match data with
  | [] => Except.error "TypeError: cannot read properties of undefined"
  | result :: _ =>
    match result.success with
    | some (s :: _) => Except.ok s.username
    | _ =>
      match result.error with
      | some e => Except.error e.description
      | none => Except.error "Unexpected response format from Hue bridge"

/-- Spec-side definition, following the words of the ordering claim: the
broadcasts appear in the order the scenes were returned by the bridge,
restricted to configured scenes. Stated for comparison with
computeBroadcasts, which the source implements. -/
def bridgeOrderBroadcasts (cfgScenes : List SceneConfig) (scenes : List HueScene) :
    List (String × Bool) :=
  (scenes.filter (fun s => cfgScenes.any (fun c => c.id = s.id))).map
    (fun s => (s.id, sceneIsActive s))

/-- Spec-side definition of the amended ordering: broadcasts appear in the
order of the configured scene list, one per configured scene whose id occurs
in the bridge result, with the activity taken from the matching scene. -/
def configOrderBroadcasts (cfgScenes : List SceneConfig) (scenes : List HueScene) :
    List (String × Bool) :=
  cfgScenes.filterMap (fun c =>
    (scenes.find? (fun s => s.id == c.id)).map (fun s => (c.id, sceneIsActive s)))

/-- Claim C1: for every scene configuration with transitionDuration d in
[1,60], a write(true) that proceeds to activation (no activation in flight)
issues exactly one recallScene call whose PUT body has action "active" and
the duration field present and equal to d * 60000 milliseconds. -/
theorem recall_duration_exact (cfg : SceneConfig) (st : SceneState) (now : Int)
    (r : Except String Unit)
    (h1 : 1 ≤ cfg.transitionDuration) (h2 : cfg.transitionDuration ≤ 60)
    (h3 : st.isActivating = false) :
    (setOn cfg st true now r).calls =
      [ApiCall.recallScene cfg.id
        { action := "active", duration := some (cfg.transitionDuration * 60000) }] := by
  have hpos : (0 : Int) < cfg.transitionDuration * 60 * 1000 := by positivity
  simp only [setOn, setOnPhase1, h3, if_false, if_true, Bool.false_eq_true,
    buildRecallRequest, if_pos hpos]
  have : cfg.transitionDuration * 60 * 1000 = cfg.transitionDuration * 60000 := by ring
  rw [this]

/-- Witness for recall_duration_exact at a concrete configuration. -/
theorem recall_duration_exact_witness :
    (1 : Int) ≤ 30 ∧ (30 : Int) ≤ 60 ∧
    (setOn { id := "scene-1", name := "Evening", transitionDuration := 30 }
        { isActivating := false, lastActivated := none } true 5000
        (Except.ok ())).calls =
      [ApiCall.recallScene "scene-1"
        { action := "active", duration := some (30 * 60000) }] :=
  ⟨by decide, by decide,
    recall_duration_exact
      { id := "scene-1", name := "Evening", transitionDuration := 30 }
      { isActivating := false, lastActivated := none } 5000 (Except.ok ())
      (by decide) (by decide) rfl⟩

/-- Claim C2: a read made while lastActivated is set and less than 30000 ms
old returns true and issues no network call, whatever the bridge fetch would
have returned. -/
theorem read_fastpath (cfg : SceneConfig) (st : SceneState) (now t : Int)
    (fetchResult : Except String HueScene)
    (h1 : st.lastActivated = some t) (h2 : now - t < 30000) :
    getOn cfg st now fetchResult = { value := true, calls := [] } := by
  simp only [getOn, h1, if_pos h2]

/-- Witness for read_fastpath: a read 1000 ms after activation returns true
with no call even though the bridge would report inactive. -/
theorem read_fastpath_witness :
    ({ isActivating := false, lastActivated := some 1000 } : SceneState).lastActivated
        = some 1000 ∧
    (2000 : Int) - 1000 < 30000 ∧
    getOn { id := "scene-1", name := "Evening", transitionDuration := 30 }
        { isActivating := false, lastActivated := some 1000 } 2000
        (Except.ok { id := "scene-1", status := some SceneStatus.inactive }) =
      { value := true, calls := [] } :=
  ⟨rfl, by decide,
    read_fastpath { id := "scene-1", name := "Evening", transitionDuration := 30 }
      { isActivating := false, lastActivated := some 1000 } 2000 1000
      (Except.ok { id := "scene-1", status := some SceneStatus.inactive })
      rfl (by decide)⟩

/-- Claim C3: when a second write(true) arrives while the first activation is
in flight, the interleaving issues exactly one recallScene call, and the
second write is a no-op: no calls, no raise, no scheduled revert, state
unchanged. -/
theorem concurrent_writes_single_recall (cfg : SceneConfig) (st : SceneState)
    (now : Int) (rA rB : Except String Unit)
    (h : st.isActivating = false) :
    (interleavedWrites cfg st true true now rA rB).1 =
      [ApiCall.recallScene cfg.id
        (buildRecallRequest (some (cfg.transitionDuration * 60 * 1000)))] ∧
    setOn cfg { st with isActivating := true } true now rB =
      { state := { st with isActivating := true }, calls := [],
        raisedCommFailure := false, scheduledRevert := none } := by
  constructor
  · simp only [interleavedWrites, setOnPhase1, h, Bool.false_eq_true, if_false,
      if_true, setOn]
  · simp only [setOn, setOnPhase1, if_true]

/-- Witness for concurrent_writes_single_recall at a concrete scene and
state, with the first recall still unresolved when the second write runs. -/
theorem concurrent_writes_single_recall_witness :
    ({ isActivating := false, lastActivated := none } : SceneState).isActivating
        = false ∧
    ((interleavedWrites { id := "scene-1", name := "Evening", transitionDuration := 5 }
        { isActivating := false, lastActivated := none } true true 7000
        (Except.ok ()) (Except.ok ())).1 =
      [ApiCall.recallScene "scene-1"
        (buildRecallRequest (some (5 * 60 * 1000)))] ∧
    setOn { id := "scene-1", name := "Evening", transitionDuration := 5 }
        { isActivating := true, lastActivated := none } true 7000 (Except.ok ()) =
      { state := { isActivating := true, lastActivated := none }, calls := [],
        raisedCommFailure := false, scheduledRevert := none }) :=
  ⟨rfl,
    concurrent_writes_single_recall
      { id := "scene-1", name := "Evening", transitionDuration := 5 }
      { isActivating := false, lastActivated := none } 7000
      (Except.ok ()) (Except.ok ()) rfl⟩

/-- Claim C4: a poll tick that starts while the previous fetch is unresolved
(isPolling true) is skipped entirely: no getScenes call, no broadcasts, state
unchanged. -/
theorem poll_overlap_skipped (cfgScenes : List SceneConfig) (st : PollState)
    (fetchResult : Except String (List HueScene))
    (h : st.isPolling = true) :
    pollSceneStatus cfgScenes st fetchResult =
      { state := st, calls := [], broadcasts := [] } := by
  simp only [pollSceneStatus, h, Bool.true_or, if_true]

/-- Witness for poll_overlap_skipped with a busy tick and a bridge that would
have answered. -/
theorem poll_overlap_skipped_witness :
    ({ isPolling := true, hasApiClient := true } : PollState).isPolling = true ∧
    pollSceneStatus [{ id := "a", name := "A", transitionDuration := 1 }]
        { isPolling := true, hasApiClient := true }
        (Except.ok [{ id := "a", status := some SceneStatus.static }]) =
      { state := { isPolling := true, hasApiClient := true }, calls := [],
        broadcasts := [] } :=
  ⟨rfl,
    poll_overlap_skipped [{ id := "a", name := "A", transitionDuration := 1 }]
      { isPolling := true, hasApiClient := true }
      (Except.ok [{ id := "a", status := some SceneStatus.static }]) rfl⟩

/-- Helper: the last-wins fold behind sceneMapGet leaves its accumulator
unchanged over a list containing no scene with the looked-up id. -/
theorem sceneMapGet_foldl_no_match (scenes : List HueScene) (id : String)
    (init : Option HueScene) (h : ∀ s ∈ scenes, s.id ≠ id) :
    scenes.foldl (fun acc s => if s.id = id then some s else acc) init = init := by
  induction scenes generalizing init with
  | nil => rfl
  | cons s rest ih =>
    simp only [List.foldl_cons]
    rw [if_neg (h s (List.mem_cons_self s rest))]
    exact ih init (fun x hx => h x (List.mem_cons_of_mem s hx))

/-- Helper: when the scene ids in the bridge result are pairwise distinct,
the last-wins Map lookup agrees with the first-match lookup. -/
theorem sceneMapGet_eq_find (scenes : List HueScene) (id : String)
    (h : (scenes.map HueScene.id).Nodup) :
    sceneMapGet scenes id = scenes.find? (fun s => s.id == id) := by
  induction scenes with
  | nil => rfl
  | cons s rest ih =>
    simp only [List.map_cons, List.nodup_cons] at h
    obtain ⟨hnotin, hrest⟩ := h
    by_cases hs : s.id = id
    · rw [List.find?_cons_of_pos _ (by simp [hs])]
      show rest.foldl _ (if s.id = id then some s else none) = some s
      rw [if_pos hs]
      exact sceneMapGet_foldl_no_match rest id (some s)
        (fun x hx hxid => hnotin (by rw [hs, ← hxid]; exact List.mem_map_of_mem _ hx))
    · rw [List.find?_cons_of_neg _ (by simp [hs]), ← ih hrest]
      show rest.foldl _ (if s.id = id then some s else none) = sceneMapGet rest id
      rw [if_neg hs]
      rfl

/-- Helper: under distinct bridge scene ids, the broadcast list the source
computes equals the configuration-order description. -/
theorem computeBroadcasts_eq_configOrder (cfgScenes : List SceneConfig)
    (scenes : List HueScene) (h : (scenes.map HueScene.id).Nodup) :
    computeBroadcasts cfgScenes scenes = configOrderBroadcasts cfgScenes scenes := by
  induction cfgScenes with
  | nil => rfl
  | cons c cs ih =>
    simp only [computeBroadcasts, configOrderBroadcasts, List.filterMap_cons] at ih ⊢
    rw [sceneMapGet_eq_find scenes c.id h]
    cases scenes.find? (fun s => s.id == c.id) with
    | none => simpa using ih
    | some sc => simpa using ih

/-- Claim C5 counterexample: with configured order [a, b] and bridge order
[b, a], the tick broadcasts in configured order, not in the order the bridge
returned the scenes. -/
theorem poll_broadcast_bridge_order_false :
    (pollSceneStatus
        [{ id := "a", name := "A", transitionDuration := 1 },
         { id := "b", name := "B", transitionDuration := 1 }]
        { isPolling := false, hasApiClient := true }
        (Except.ok [{ id := "b", status := some SceneStatus.static },
                    { id := "a", status := none }])).broadcasts
      = [("a", false), ("b", true)] ∧
    bridgeOrderBroadcasts
        [{ id := "a", name := "A", transitionDuration := 1 },
         { id := "b", name := "B", transitionDuration := 1 }]
        [{ id := "b", status := some SceneStatus.static },
         { id := "a", status := none }]
      = [("b", true), ("a", false)] ∧
    (pollSceneStatus
        [{ id := "a", name := "A", transitionDuration := 1 },
         { id := "b", name := "B", transitionDuration := 1 }]
        { isPolling := false, hasApiClient := true }
        (Except.ok [{ id := "b", status := some SceneStatus.static },
                    { id := "a", status := none }])).broadcasts
      ≠ bridgeOrderBroadcasts
          [{ id := "a", name := "A", transitionDuration := 1 },
           { id := "b", name := "B", transitionDuration := 1 }]
          [{ id := "b", status := some SceneStatus.static },
           { id := "a", status := none }] := by
  refine ⟨rfl, rfl, ?_⟩
  decide

/-- Claim C5 amended: within one poll tick on a bridge result with pairwise
distinct scene ids, the (sceneId, isActive) broadcasts are emitted in the
order of the configured scene list, one per configured scene present in the
result, each with the activity of its matching bridge scene. -/
theorem poll_broadcast_config_order (cfgScenes : List SceneConfig)
    (scenes : List HueScene) (st : PollState)
    (h1 : st.isPolling = false) (h2 : st.hasApiClient = true)
    (h3 : (scenes.map HueScene.id).Nodup) :
    (pollSceneStatus cfgScenes st (Except.ok scenes)).broadcasts
      = configOrderBroadcasts cfgScenes scenes := by
  have hc : (st.isPolling || !st.hasApiClient) = false := by rw [h1, h2]; rfl
  simp only [pollSceneStatus, hc, Bool.false_eq_true, if_false]
  exact computeBroadcasts_eq_configOrder cfgScenes scenes h3

/-- Witness for poll_broadcast_config_order at the counterexample input. -/
theorem poll_broadcast_config_order_witness :
    ({ isPolling := false, hasApiClient := true } : PollState).isPolling = false ∧
    ({ isPolling := false, hasApiClient := true } : PollState).hasApiClient = true ∧
    (([{ id := "b", status := some SceneStatus.static },
       { id := "a", status := none }] : List HueScene).map HueScene.id).Nodup ∧
    (pollSceneStatus
        [{ id := "a", name := "A", transitionDuration := 1 },
         { id := "b", name := "B", transitionDuration := 1 }]
        { isPolling := false, hasApiClient := true }
        (Except.ok [{ id := "b", status := some SceneStatus.static },
                    { id := "a", status := none }])).broadcasts
      = configOrderBroadcasts
          [{ id := "a", name := "A", transitionDuration := 1 },
           { id := "b", name := "B", transitionDuration := 1 }]
          [{ id := "b", status := some SceneStatus.static },
           { id := "a", status := none }] :=
  ⟨rfl, rfl, by decide,
    poll_broadcast_config_order
      [{ id := "a", name := "A", transitionDuration := 1 },
       { id := "b", name := "B", transitionDuration := 1 }]
      [{ id := "b", status := some SceneStatus.static },
       { id := "a", status := none }]
      { isPolling := false, hasApiClient := true } rfl rfl (by decide)⟩

/-- Claim C6: when recallScene rejects, the write raises the
communication-failure signal, schedules after 100 ms a reversion of the
displayed state to the opposite of the requested value, leaves lastActivated
unchanged (not set) and isActivating false, and a subsequent write(true)
proceeds to a new recallScene call. -/
theorem write_failure_reverts (cfg : SceneConfig) (st : SceneState)
    (now now2 : Int) (e : String) (r2 : Except String Unit)
    (h : st.isActivating = false) :
    (setOn cfg st true now (Except.error e)).raisedCommFailure = true ∧
    (setOn cfg st true now (Except.error e)).scheduledRevert = some (100, false) ∧
    (setOn cfg st true now (Except.error e)).state.lastActivated = st.lastActivated ∧
    (setOn cfg st true now (Except.error e)).state.isActivating = false ∧
    (setOn cfg (setOn cfg st true now (Except.error e)).state true now2 r2).calls =
      [ApiCall.recallScene cfg.id
        (buildRecallRequest (some (cfg.transitionDuration * 60 * 1000)))] := by
  simp [setOn, setOnPhase1, setOnPhase2, h]

/-- Witness for write_failure_reverts at a concrete scene, a rejected recall
and a retry that succeeds. -/
theorem write_failure_reverts_witness :
    ({ isActivating := false, lastActivated := none } : SceneState).isActivating
        = false ∧
    ((setOn { id := "scene-1", name := "Evening", transitionDuration := 2 }
        { isActivating := false, lastActivated := none } true 0
        (Except.error "bridge error")).raisedCommFailure = true ∧
    (setOn { id := "scene-1", name := "Evening", transitionDuration := 2 }
        { isActivating := false, lastActivated := none } true 0
        (Except.error "bridge error")).scheduledRevert = some (100, false) ∧
    (setOn { id := "scene-1", name := "Evening", transitionDuration := 2 }
        { isActivating := false, lastActivated := none } true 0
        (Except.error "bridge error")).state.lastActivated =
      ({ isActivating := false, lastActivated := none } : SceneState).lastActivated ∧
    (setOn { id := "scene-1", name := "Evening", transitionDuration := 2 }
        { isActivating := false, lastActivated := none } true 0
        (Except.error "bridge error")).state.isActivating = false ∧
    (setOn { id := "scene-1", name := "Evening", transitionDuration := 2 }
        (setOn { id := "scene-1", name := "Evening", transitionDuration := 2 }
          { isActivating := false, lastActivated := none } true 0
          (Except.error "bridge error")).state true 60000 (Except.ok ())).calls =
      [ApiCall.recallScene "scene-1"
        (buildRecallRequest (some (2 * 60 * 1000)))]) :=
  ⟨rfl,
    write_failure_reverts { id := "scene-1", name := "Evening", transitionDuration := 2 }
      { isActivating := false, lastActivated := none } 0 60000 "bridge error"
      (Except.ok ()) rfl⟩

/-- Claim C7: when getScenes rejects during a poll tick, no broadcasts are
emitted that tick, the error is swallowed, the busy flag ends false, and the
next tick on the resulting state issues its getScenes call normally. -/
theorem poll_fetch_failure_swallowed (cfgScenes : List SceneConfig)
    (st : PollState) (e : String) (fetch2 : Except String (List HueScene))
    (h1 : st.isPolling = false) (h2 : st.hasApiClient = true) :
    (pollSceneStatus cfgScenes st (Except.error e)).broadcasts = [] ∧
    (pollSceneStatus cfgScenes st (Except.error e)).state.isPolling = false ∧
    (pollSceneStatus cfgScenes (pollSceneStatus cfgScenes st (Except.error e)).state
        fetch2).calls = [ApiCall.getScenes] := by
  have hc : (st.isPolling || !st.hasApiClient) = false := by rw [h1, h2]; rfl
  have hstate : (pollSceneStatus cfgScenes st (Except.error e)).state =
      { isPolling := false, hasApiClient := st.hasApiClient } := by
    simp [pollSceneStatus, hc]
  refine ⟨?_, ?_, ?_⟩
  · simp [pollSceneStatus, hc]
  · simp [pollSceneStatus, hc]
  · rw [hstate]
    cases fetch2 with
    | ok scenes => simp [pollSceneStatus, h2]
    | error e2 => simp [pollSceneStatus, h2]

/-- Witness for poll_fetch_failure_swallowed with a failing first tick and a
succeeding second tick. -/
theorem poll_fetch_failure_swallowed_witness :
    ({ isPolling := false, hasApiClient := true } : PollState).isPolling = false ∧
    ({ isPolling := false, hasApiClient := true } : PollState).hasApiClient = true ∧
    ((pollSceneStatus [{ id := "a", name := "A", transitionDuration := 1 }]
        { isPolling := false, hasApiClient := true }
        (Except.error "down")).broadcasts = [] ∧
    (pollSceneStatus [{ id := "a", name := "A", transitionDuration := 1 }]
        { isPolling := false, hasApiClient := true }
        (Except.error "down")).state.isPolling = false ∧
    (pollSceneStatus [{ id := "a", name := "A", transitionDuration := 1 }]
        (pollSceneStatus [{ id := "a", name := "A", transitionDuration := 1 }]
          { isPolling := false, hasApiClient := true }
          (Except.error "down")).state
        (Except.ok [{ id := "a", status := some SceneStatus.static }])).calls =
      [ApiCall.getScenes]) :=
  ⟨rfl, rfl,
    poll_fetch_failure_swallowed [{ id := "a", name := "A", transitionDuration := 1 }]
      { isPolling := false, hasApiClient := true } "down"
      (Except.ok [{ id := "a", status := some SceneStatus.static }]) rfl rfl⟩

/-- Claim C8: a write(false) made while no activation is in flight issues no
network call and clears lastActivated; and a write(false) in any state
whatsoever issues no network call. -/
theorem write_off_no_network (cfg : SceneConfig) (st st2 : SceneState)
    (now now2 : Int) (r r2 : Except String Unit)
    (h : st.isActivating = false) :
    setOn cfg st false now r =
      { state := { isActivating := false, lastActivated := none }, calls := [],
        raisedCommFailure := false, scheduledRevert := none } ∧
    (setOn cfg st2 false now2 r2).calls = [] := by
  constructor
  · simp [setOn, setOnPhase1, h]
  · by_cases h2 : st2.isActivating <;> simp [setOn, setOnPhase1, h2]

/-- Witness for write_off_no_network: turning off after an activation clears
the timestamp with no call; turning off even mid-activation makes no call. -/
theorem write_off_no_network_witness :
    ({ isActivating := false, lastActivated := some 500 } : SceneState).isActivating
        = false ∧
    (setOn { id := "scene-1", name := "Evening", transitionDuration := 3 }
        { isActivating := false, lastActivated := some 500 } false 9000
        (Except.ok ()) =
      { state := { isActivating := false, lastActivated := none }, calls := [],
        raisedCommFailure := false, scheduledRevert := none } ∧
    (setOn { id := "scene-1", name := "Evening", transitionDuration := 3 }
        { isActivating := true, lastActivated := some 500 } false 9000
        (Except.ok ())).calls = []) :=
  ⟨rfl,
    write_off_no_network { id := "scene-1", name := "Evening", transitionDuration := 3 }
      { isActivating := false, lastActivated := some 500 }
      { isActivating := true, lastActivated := some 500 } 9000 9000
      (Except.ok ()) (Except.ok ()) rfl⟩

/-- Claim C9: a one-element response whose success list is non-empty makes
createApiKey return exactly the embedded username; a one-element response
carrying an error object makes it fail with exactly that description. -/
theorem createApiKey_roundtrip (u : String) (rest : List HueAuthSuccess)
    (err : HueAuthError) (se : Option HueAuthError) :
    createApiKey [{ success := some ({ username := u } :: rest), error := se }]
      = Except.ok u ∧
    createApiKey [{ success := none, error := some err }]
      = Except.error err.description :=
  ⟨rfl, rfl⟩

/-- Claim C10: a bridge scene with the status field absent is classified
inactive everywhere: sceneIsActive is false, a read outside the local window
returns false and behaves exactly as if the status tag were inactive, and a
poll tick broadcasts (id, false) for it. -/
theorem absent_status_inactive (cfg : SceneConfig) (scene : HueScene)
    (st : SceneState) (now : Int)
    (h1 : scene.status = none) (h2 : st.lastActivated = none)
    (h3 : cfg.id = scene.id) :
    sceneIsActive scene = false ∧
    (getOn cfg st now (Except.ok scene)).value = false ∧
    getOn cfg st now (Except.ok scene) =
      getOn cfg st now (Except.ok { scene with status := some SceneStatus.inactive }) ∧
    (pollSceneStatus [cfg] { isPolling := false, hasApiClient := true }
        (Except.ok [scene])).broadcasts = [(cfg.id, false)] := by
  have hact : sceneIsActive scene = false := by
    simp [sceneIsActive, h1]
  refine ⟨hact, ?_, ?_, ?_⟩
  · simp [getOn, h2, getOnViaBridge, sceneIsActive, h1]
  · simp [getOn, h2, getOnViaBridge, sceneIsActive, h1]
  · simp [pollSceneStatus, computeBroadcasts, sceneMapGet, h3, sceneIsActive, h1]

/-- Witness for absent_status_inactive at a concrete status-less scene. -/
theorem absent_status_inactive_witness :
    ({ id := "a", status := none } : HueScene).status = none ∧
    ({ isActivating := false, lastActivated := none } : SceneState).lastActivated
        = none ∧
    ({ id := "a", name := "A", transitionDuration := 1 } : SceneConfig).id
        = ({ id := "a", status := none } : HueScene).id ∧
    (sceneIsActive { id := "a", status := none } = false ∧
    (getOn { id := "a", name := "A", transitionDuration := 1 }
        { isActivating := false, lastActivated := none } 0
        (Except.ok { id := "a", status := none })).value = false ∧
    getOn { id := "a", name := "A", transitionDuration := 1 }
        { isActivating := false, lastActivated := none } 0
        (Except.ok { id := "a", status := none }) =
      getOn { id := "a", name := "A", transitionDuration := 1 }
        { isActivating := false, lastActivated := none } 0
        (Except.ok { id := "a", status := some SceneStatus.inactive }) ∧
    (pollSceneStatus [{ id := "a", name := "A", transitionDuration := 1 }]
        { isPolling := false, hasApiClient := true }
        (Except.ok [{ id := "a", status := none }])).broadcasts
      = [("a", false)]) :=
  ⟨rfl, rfl, rfl,
    absent_status_inactive { id := "a", name := "A", transitionDuration := 1 }
      { id := "a", status := none }
      { isActivating := false, lastActivated := none } 0 rfl rfl rfl⟩
